import Mathlib

/-!
Shallow embedding of the admin dashboard's two management screens
(`DepartmentList` and `TeamMemberList` in
`src/app/(dash)/manage-departments/page.tsx`) and the rich-text editor
configuration (`src/lib/quill/quillModules.ts`).

Network effects are modelled by passing the outcome of each `fetch` call
explicitly: an outcome is either a rejection of the promise, or a response
carrying an `ok` flag and an optional parsed JSON body (`none` standing for
a body that `res.json()` fails to parse, which makes `res.json()` reject).
An uncaught exception escaping a handler is recorded in a `threw` flag of
the handler's result; effects performed before the throw (the issued
request) are still recorded, effects after it (toasts, refetch) are not.
-/

/-- Result of evaluating a JavaScript expression `x?.message || dflt`:
the fallback is used when the field is absent (or the object is null) and
also when the message is the empty string, which is falsy. -/
def jsOrElse : Option String → String → String
  | none, d => d
  | some s, d => if s = "" then d else s

/-- Truthiness of a `string | null` JavaScript value: `null` and the empty
string are falsy, every other string is truthy. -/
def jsTruthy : Option String → Bool
  | none => false
  | some s => !(s == "")

/-- Interpolation of a `string | null` value into a template literal:
`null` prints as the text "null". -/
def jsTemplate : Option String → String
  | none => "null"
  | some s => s

/-- A toast notification emitted through `sonner`. -/
inductive Toast where
  | success (msg : String)
  | error (msg : String)
deriving DecidableEq, Repr

/-- An HTTP request issued through `fetch`, identified by method and URL. -/
structure Request where
  method : String
  url : String
deriving DecidableEq, Repr

/-- Parsed JSON body of a mutating request's response; only the `message`
field is ever read by the handlers. `message := none` also stands for a
parsed body that is null or lacks the field. -/
structure RespBody where
  message : Option String
deriving DecidableEq, Repr

/-- Outcome of a mutating `fetch`: the promise rejects, or a response
arrives with status flag `ok` and an optional parsable JSON body
(`none` = `res.json()` rejects). -/
inductive MutOutcome where
  | reject
  | response (ok : Bool) (body : Option RespBody)
deriving DecidableEq, Repr

/-- A mutating request's transport fails when the fetch promise rejects or
the response body is unparsable (making `res.json()` reject). -/
def isTransportFailure : MutOutcome → Bool
  | MutOutcome.reject => true
  | MutOutcome.response _ none => true
  | MutOutcome.response _ (some _) => false

/-- Outcome of a list-reading `fetch`, parameterised by the shape of the
parsed body. -/
inductive ListOutcome (β : Type) where
  | reject
  | response (ok : Bool) (body : Option β)

/-- A list fetch fails when the promise rejects, the status is non-OK, or
the body is unparsable. -/
def isListFailure {β : Type} : ListOutcome β → Bool
  | ListOutcome.reject => true
  | ListOutcome.response ok body => !ok || body.isNone

/-- The `Department` record rendered by `DepartmentList`. -/
structure Department where
  id : String
  name : String
  description : Option String
  teams : List String
deriving DecidableEq, Repr

/-- The `DepartmentForm` values bound to the department dialog. -/
structure DepartmentForm where
  name : String
  description : Option String
deriving DecidableEq, Repr

/-- Parsed body of `GET /department`: the handlers read `data.data`. -/
structure DeptListBody where
  data : List Department
deriving DecidableEq, Repr

namespace DepartmentList

/-- Component state of `DepartmentList` relevant to the claims. -/
structure State where
  departments : List Department
  loading : Bool
  isDialogOpen : Bool
  isDeleteDialogOpen : Bool
  isEdit : Bool
  currentDepartmentId : Option String
deriving DecidableEq, Repr

/-- Embedding of `fetchDepartments`: the whole body is wrapped in
try/catch, `!res.ok` throws before the body is parsed, and the catch
emits the fixed error toast leaving `departments` untouched. Returns the
new `departments` state and the toasts emitted. -/
def fetchDepartments (prior : List Department) (o : ListOutcome DeptListBody) :
    List Department × List Toast :=
  match o with
  | ListOutcome.reject => (prior, [Toast.error "Failed to load departments"])
  | ListOutcome.response false _ => (prior, [Toast.error "Failed to load departments"])
  | ListOutcome.response true none => (prior, [Toast.error "Failed to load departments"])
  | ListOutcome.response true (some b) => (b.data, [])

/-- The request constructed at the top of `onSubmit` from `isEdit` and
`currentDepartmentId`. -/
def submitRequest (base : String) (isEdit : Bool) (currentDepartmentId : Option String) :
    Request :=
  { method := if isEdit then "PATCH" else "POST"
  , url := if isEdit then base ++ "/department/" ++ jsTemplate currentDepartmentId
           else base ++ "/department" }

/-- Result of running the `onSubmit` handler of `DepartmentList`. -/
structure SubmitResult where
  request : Request
  toasts : List Toast
  dialogClosed : Bool
  refetch : Bool
  threw : Bool
deriving DecidableEq, Repr

/-- Embedding of `onSubmit` in `DepartmentList`: the fetch is not wrapped
in try/catch, and `res.json()` runs before `res.ok` is checked, so a
rejected fetch or an unparsable body throws out of the handler with no
toast, no dialog change and no refetch. -/
def onSubmit (base : String) (isEdit : Bool) (currentDepartmentId : Option String)
    (o : MutOutcome) : SubmitResult :=
  match o with
  | MutOutcome.reject =>
      { request := submitRequest base isEdit currentDepartmentId
      , toasts := [], dialogClosed := false, refetch := false, threw := true }
  | MutOutcome.response _ none =>
      { request := submitRequest base isEdit currentDepartmentId
      , toasts := [], dialogClosed := false, refetch := false, threw := true }
  | MutOutcome.response true (some _) =>
      { request := submitRequest base isEdit currentDepartmentId
      , toasts := [Toast.success (if isEdit then "Department updated successfully"
                                  else "Department added successfully")]
      , dialogClosed := true, refetch := true, threw := false }
  | MutOutcome.response false (some b) =>
      { request := submitRequest base isEdit currentDepartmentId
      , toasts := [Toast.error (jsOrElse b.message "Something went wrong")]
      , dialogClosed := false, refetch := false, threw := false }

/-- Result of running the `deleteDepartment` handler. -/
structure DeleteResult where
  request : Request
  toasts : List Toast
  refetch : Bool
  threw : Bool
deriving DecidableEq, Repr

/-- Embedding of `deleteDepartment`: `res.json()` runs before `res.ok` is
checked and nothing is caught, so a rejected fetch or an unparsable body
throws with no toast and no refetch. -/
def deleteDepartment (base : String) (id : String) (o : MutOutcome) : DeleteResult :=
  match o with
  | MutOutcome.reject =>
      { request := { method := "DELETE", url := base ++ "/department/" ++ id }
      , toasts := [], refetch := false, threw := true }
  | MutOutcome.response _ none =>
      { request := { method := "DELETE", url := base ++ "/department/" ++ id }
      , toasts := [], refetch := false, threw := true }
  | MutOutcome.response true (some b) =>
      { request := { method := "DELETE", url := base ++ "/department/" ++ id }
      , toasts := [Toast.success (jsOrElse b.message "Department deleted!")]
      , refetch := true, threw := false }
  | MutOutcome.response false (some b) =>
      { request := { method := "DELETE", url := base ++ "/department/" ++ id }
      , toasts := [Toast.error (jsOrElse b.message "Delete failed")]
      , refetch := false, threw := false }

/-- Embedding of the delete dialog's Cancel button: its onClick only calls
`setIsDeleteDialogOpen(false)`. Returns the new state and the requests
issued by the click. -/
def cancelDeleteClick (st : State) : State × List Request :=
  ({ st with isDeleteDialogOpen := false }, [])

/-- Embedding of the delete dialog's Delete button: the onClick calls
`deleteDepartment(currentDepartmentId)` only when the stored identifier is
truthy, then closes the dialog. Returns the new state and the requests
issued by the click. -/
def confirmDeleteClick (base : String) (st : State) : State × List Request :=
  ( { st with isDeleteDialogOpen := false }
  , match st.currentDepartmentId with
    | none => []
    | some id =>
        if id = "" then []
        else [{ method := "DELETE", url := base ++ "/department/" ++ id }] )

end DepartmentList

/-- The nested `department` object carried by a team member row. -/
structure DeptRef where
  id : String
  name : String
deriving DecidableEq, Repr

/-- The `TeamMember` record rendered by `TeamMemberList`. -/
structure TeamMember where
  id : String
  name : String
  designation : String
  about : String
  image : Option String
  departmentId : Option String
  department : Option DeptRef
deriving DecidableEq, Repr

/-- The `TeamMemberForm` values bound to the team-member dialog. -/
structure TeamMemberForm where
  name : String
  designation : String
  about : String
  departmentId : String
deriving DecidableEq, Repr

/-- Parsed body of `GET /team`: `data.data` is an object grouping members
by department identifier; the association list records its key-iteration
order. -/
structure TeamListBody where
  data : List (String × List TeamMember)
deriving DecidableEq, Repr

namespace TeamMemberList

/-- Component state of `TeamMemberList` relevant to the claims. -/
structure State where
  teamMembers : List TeamMember
  departments : List DeptRef
  loading : Bool
  isDialogOpen : Bool
  isDeleteDialogOpen : Bool
  isEdit : Bool
  currentMemberId : Option String
  memberImageLink : Option String
  isUploading : Bool
deriving DecidableEq, Repr

/-- The flattening loop inside `fetchTeamMembers`:
`Object.keys(grouped).forEach(deptId => flatArray.push(...grouped[deptId]))`,
pushing each group onto the accumulated array in key-iteration order. -/
def flattenGrouped (grouped : List (String × List TeamMember)) : List TeamMember :=
  grouped.foldl (fun acc kv => acc ++ kv.2) []

/-- Embedding of `fetchTeamMembers`: wrapped in try/catch, `!res.ok`
throws before parsing, success stores the flattened groups; the catch
emits the fixed error toast leaving `teamMembers` untouched. Returns the
new `teamMembers` state and the toasts emitted. -/
def fetchTeamMembers (prior : List TeamMember) (o : ListOutcome TeamListBody) :
    List TeamMember × List Toast :=
  match o with
  | ListOutcome.reject => (prior, [Toast.error "Failed to load team members"])
  | ListOutcome.response false _ => (prior, [Toast.error "Failed to load team members"])
  | ListOutcome.response true none => (prior, [Toast.error "Failed to load team members"])
  | ListOutcome.response true (some b) => (flattenGrouped b.data, [])

/-- Embedding of the start of `handleImageChange` (after the `!file`
guard): `setIsUploading(true)` and `setMemberImageLink(null)` run before
the upload is awaited, so this is the state while the upload is in
flight. -/
def handleImageChangeStart (st : State) : State :=
  { st with isUploading := true, memberImageLink := none }

/-- Embedding of `handleImageChange` in full: no file selected is a
no-op; otherwise the upload result either stores the returned reference
with a success toast or emits the upload-failed toast, and `finally`
clears the uploading flag. -/
def handleImageChange (st : State) (file : Option Unit) (upload : Except Unit String) :
    State × List Toast :=
  match file with
  | none => (st, [])
  | some _ =>
      match upload with
      | Except.ok imageUrl =>
          ({ handleImageChangeStart st with
              memberImageLink := some imageUrl, isUploading := false },
           [Toast.success "Image uploaded successfully"])
      | Except.error _ =>
          ({ handleImageChangeStart st with isUploading := false },
           [Toast.error "Image upload failed"])

/-- The JSON payload built by `onSubmit`: a spread of the form data, with
`payload.image = memberImageLink` added only when the link is truthy.
`image := none` means the key is absent from the serialized body. -/
structure Payload where
  name : String
  designation : String
  about : String
  departmentId : String
  image : Option String
deriving DecidableEq, Repr

/-- Embedding of the payload construction in `onSubmit`:
`const payload = \x7b...data\x7d; if (memberImageLink) payload.image = memberImageLink`. -/
def buildPayload (data : TeamMemberForm) (memberImageLink : Option String) : Payload :=
  { name := data.name
  , designation := data.designation
  , about := data.about
  , departmentId := data.departmentId
  , image := if jsTruthy memberImageLink then memberImageLink else none }

/-- The request constructed at the top of `onSubmit` from `isEdit` and
`currentMemberId`. -/
def submitRequest (base : String) (isEdit : Bool) (currentMemberId : Option String) :
    Request :=
  { method := if isEdit then "PATCH" else "POST"
  , url := if isEdit then base ++ "/team/" ++ jsTemplate currentMemberId
           else base ++ "/team" }

/-- Result of running the `onSubmit` handler of `TeamMemberList`. -/
structure SubmitResult where
  request : Request
  payload : Payload
  toasts : List Toast
  dialogClosed : Bool
  refetch : Bool
  threw : Bool
deriving DecidableEq, Repr

/-- Embedding of `onSubmit` in `TeamMemberList`: like the department
variant, nothing is caught and `res.json()` runs before `res.ok` is
checked, so a rejected fetch or an unparsable body throws with no toast,
no dialog change and no refetch. -/
def onSubmit (base : String) (isEdit : Bool) (currentMemberId : Option String)
    (data : TeamMemberForm) (memberImageLink : Option String) (o : MutOutcome) :
    SubmitResult :=
  match o with
  | MutOutcome.reject =>
      { request := submitRequest base isEdit currentMemberId
      , payload := buildPayload data memberImageLink
      , toasts := [], dialogClosed := false, refetch := false, threw := true }
  | MutOutcome.response _ none =>
      { request := submitRequest base isEdit currentMemberId
      , payload := buildPayload data memberImageLink
      , toasts := [], dialogClosed := false, refetch := false, threw := true }
  | MutOutcome.response true (some _) =>
      { request := submitRequest base isEdit currentMemberId
      , payload := buildPayload data memberImageLink
      , toasts := [Toast.success (if isEdit then "Team member updated successfully"
                                  else "Team member added successfully")]
      , dialogClosed := true, refetch := true, threw := false }
  | MutOutcome.response false (some b) =>
      { request := submitRequest base isEdit currentMemberId
      , payload := buildPayload data memberImageLink
      , toasts := [Toast.error (jsOrElse b.message "Something went wrong")]
      , dialogClosed := false, refetch := false, threw := false }

/-- Result of running the `deleteTeamMember` handler. -/
structure DeleteResult where
  request : Request
  toasts : List Toast
  refetch : Bool
  threw : Bool
deriving DecidableEq, Repr

/-- Embedding of `deleteTeamMember`: `res.json()` runs before `res.ok` is
checked and nothing is caught, so a rejected fetch or an unparsable body
throws with no toast and no refetch. -/
def deleteTeamMember (base : String) (id : String) (o : MutOutcome) : DeleteResult :=
  match o with
  | MutOutcome.reject =>
      { request := { method := "DELETE", url := base ++ "/team/" ++ id }
      , toasts := [], refetch := false, threw := true }
  | MutOutcome.response _ none =>
      { request := { method := "DELETE", url := base ++ "/team/" ++ id }
      , toasts := [], refetch := false, threw := true }
  | MutOutcome.response true (some b) =>
      { request := { method := "DELETE", url := base ++ "/team/" ++ id }
      , toasts := [Toast.success (jsOrElse b.message "Team member deleted!")]
      , refetch := true, threw := false }
  | MutOutcome.response false (some b) =>
      { request := { method := "DELETE", url := base ++ "/team/" ++ id }
      , toasts := [Toast.error (jsOrElse b.message "Delete failed")]
      , refetch := false, threw := false }

/-- Embedding of the delete dialog's Cancel button: its onClick only calls
`setIsDeleteDialogOpen(false)`. Returns the new state and the requests
issued by the click. -/
def cancelDeleteClick (st : State) : State × List Request :=
  ({ st with isDeleteDialogOpen := false }, [])

/-- Embedding of the delete dialog's Delete button: the onClick calls
`deleteTeamMember(currentMemberId)` only when the stored identifier is
truthy, then closes the dialog. Returns the new state and the requests
issued by the click. -/
def confirmDeleteClick (base : String) (st : State) : State × List Request :=
  ( { st with isDeleteDialogOpen := false }
  , match st.currentMemberId with
    | none => []
    | some id =>
        if id = "" then []
        else [{ method := "DELETE", url := base ++ "/team/" ++ id }] )

/-- The controls of the team-member form dialog whose rendering depends on
component state: the file input and the submit button both carry
`disabled=\x7bisUploading\x7d`, and the uploading hint is shown while
`isUploading` holds. -/
structure FormView where
  fileInputDisabled : Bool
  uploadingHintShown : Bool
  submitDisabled : Bool
deriving DecidableEq, Repr

/-- Embedding of the form dialog's render: every uploading-dependent
control mirrors the `isUploading` flag. -/
def renderForm (st : State) : FormView :=
  { fileInputDisabled := st.isUploading
  , uploadingHintShown := st.isUploading
  , submitDisabled := st.isUploading }

end TeamMemberList

/-- State of a live Quill editor instance as far as the custom handlers
touch it: document text and the current selection. -/
structure QuillEditor where
  text : String
  selectionIndex : Nat
  selectionLength : Nat
deriving DecidableEq, Repr

/-- Embedding of `editor.setText(t)`. -/
def quillSetText (e : QuillEditor) (t : String) : QuillEditor :=
  { e with text := t }

/-- Embedding of `editor.setSelection(i, len)`. -/
def quillSetSelection (e : QuillEditor) (i len : Nat) : QuillEditor :=
  { e with selectionIndex := i, selectionLength := len }

/-- The two custom toolbar handlers built by `createQuillModules`; each
receives the current value of `quillRef.current` (`none` when the ref is
empty) and returns the editor state afterwards. -/
structure QuillHandlers where
  image : Option QuillEditor → Option QuillEditor
  clear : Option QuillEditor → Option QuillEditor

/-- Embedding of `createQuillModules`: both handlers return immediately
when `quillRef.current` is empty; `image` delegates to the external
`quillImageHandler` (a parameter here), and `clear` runs
`editor.setText` with the empty string then `editor.setSelection(0, 0)`. -/
def createQuillModules (quillImageHandler : QuillEditor → QuillEditor) : QuillHandlers :=
  { image := fun quillRef =>
      match quillRef with
      | none => none
      | some editor => some (quillImageHandler editor)
  , clear := fun quillRef =>
      match quillRef with
      | none => none
      | some editor => some (quillSetSelection (quillSetText editor "") 0 0) }

/-! Helper lemmas for the flattening of grouped team-member data. -/

/-- The push-append fold underlying `flattenGrouped`, generalised over the
accumulator. -/
theorem flattenGrouped_foldl (g : List (String × List TeamMember))
    (acc : List TeamMember) :
    g.foldl (fun a kv => a ++ kv.2) acc = acc ++ (g.map Prod.snd).flatten := by
  induction g generalizing acc with
  | nil => simp
  | cons kv tl ih => simp [ih, List.append_assoc]

/-- Occurrence counts distribute over the concatenation of a list of
groups. -/
theorem count_flatten_groups (m : TeamMember) (ls : List (List TeamMember)) :
    ls.flatten.count m = (ls.map (fun l => l.count m)).sum := by
  induction ls with
  | nil => simp
  | cons hd tl ih => simp [List.count_append, ih]

/-- Claim C1: the flattening performed by `fetchTeamMembers` produces the
concatenation of the department groups in key-iteration order with
within-group order preserved, so every member occurs in the flat list
exactly as many times as it occurs across all groups, regardless of how
members are partitioned among departments. -/
theorem C1_flatten_preserves_members (g : List (String × List TeamMember))
    (m : TeamMember) (prior : List TeamMember) :
    TeamMemberList.flattenGrouped g = (g.map Prod.snd).flatten
    ∧ (TeamMemberList.fetchTeamMembers prior
        (ListOutcome.response true (some { data := g }))).1
        = TeamMemberList.flattenGrouped g
    ∧ (TeamMemberList.flattenGrouped g).count m
        = (g.map (fun kv => kv.2.count m)).sum := by
  have hjoin : TeamMemberList.flattenGrouped g = (g.map Prod.snd).flatten := by
    simpa [TeamMemberList.flattenGrouped] using flattenGrouped_foldl g []
  refine ⟨hjoin, rfl, ?_⟩
  rw [hjoin, count_flatten_groups]
  simp [List.map_map, Function.comp_def]

/-- Claim C9: for a live editor instance, the custom clear toolbar handler
erases all document content and resets the cursor selection to position 0
at the document start. -/
theorem C9_clear_handler_resets_document (h : QuillEditor → QuillEditor)
    (ed : QuillEditor) :
    (createQuillModules h).clear (some ed)
      = some { text := "", selectionIndex := 0, selectionLength := 0 } := rfl

/-- Claim C4: for every form submission the request method and endpoint
are determined solely by the `isEdit` flag and the remembered target
identifier: a POST to the collection root when `isEdit` is false, and a
PATCH to the collection root followed by the remembered identifier when
`isEdit` is true. -/
theorem C4_submit_request_construction (base i : String) (cid : Option String)
    (d : TeamMemberForm) (link : Option String) (o : MutOutcome) :
    (DepartmentList.onSubmit base false cid o).request
      = { method := "POST", url := base ++ "/department" }
    ∧ (DepartmentList.onSubmit base true (some i) o).request
      = { method := "PATCH", url := base ++ "/department/" ++ i }
    ∧ (TeamMemberList.onSubmit base false cid d link o).request
      = { method := "POST", url := base ++ "/team" }
    ∧ (TeamMemberList.onSubmit base true (some i) d link o).request
      = { method := "PATCH", url := base ++ "/team/" ++ i } := by
  cases o with
  | reject => exact ⟨rfl, rfl, rfl, rfl⟩
  | response ok body => cases body <;> cases ok <;> exact ⟨rfl, rfl, rfl, rfl⟩

/-- Claim C2 counterexample: a create submission whose fetch rejects
emits no notification at all (the handler throws instead), contradicting
the claimed generic fallback error notification. -/
theorem C2_counterexample_reject_no_toast :
    (DepartmentList.onSubmit "http://api" false none MutOutcome.reject).toasts = []
    ∧ (DepartmentList.onSubmit "http://api" false none MutOutcome.reject).threw = true :=
  ⟨rfl, rfl⟩

/-- Claim C2 amended: for every form submission (create or update) and
every delete request, if the transport fails (the fetch rejects, or the
response body is unparsable) the handler throws an uncaught exception and
no notification of any kind is emitted; the generic fallback notification
only appears for a non-OK response whose body parses. -/
theorem C2_amended_transport_failure_throws (base id : String) (isEdit : Bool)
    (cid : Option String) (d : TeamMemberForm) (link : Option String)
    (o : MutOutcome) (h : isTransportFailure o = true) :
    (DepartmentList.onSubmit base isEdit cid o).toasts = []
    ∧ (DepartmentList.onSubmit base isEdit cid o).threw = true
    ∧ (TeamMemberList.onSubmit base isEdit cid d link o).toasts = []
    ∧ (TeamMemberList.onSubmit base isEdit cid d link o).threw = true
    ∧ (DepartmentList.deleteDepartment base id o).toasts = []
    ∧ (DepartmentList.deleteDepartment base id o).threw = true
    ∧ (TeamMemberList.deleteTeamMember base id o).toasts = []
    ∧ (TeamMemberList.deleteTeamMember base id o).threw = true := by
  cases o with
  | reject => exact ⟨rfl, rfl, rfl, rfl, rfl, rfl, rfl, rfl⟩
  | response ok body =>
      cases body with
      | none => cases ok <;> exact ⟨rfl, rfl, rfl, rfl, rfl, rfl, rfl, rfl⟩
      | some b => simp [isTransportFailure] at h

/-- Claim C2 amended, witness at a rejecting fetch for the department
create submission and both delete handlers. -/
theorem C2_amended_witness :
    isTransportFailure MutOutcome.reject = true
    ∧ ((DepartmentList.onSubmit "b" false none MutOutcome.reject).toasts = []
       ∧ (DepartmentList.onSubmit "b" false none MutOutcome.reject).threw = true
       ∧ (TeamMemberList.onSubmit "b" false none
            { name := "n", designation := "d", about := "a", departmentId := "1" }
            none MutOutcome.reject).toasts = []
       ∧ (TeamMemberList.onSubmit "b" false none
            { name := "n", designation := "d", about := "a", departmentId := "1" }
            none MutOutcome.reject).threw = true
       ∧ (DepartmentList.deleteDepartment "b" "1" MutOutcome.reject).toasts = []
       ∧ (DepartmentList.deleteDepartment "b" "1" MutOutcome.reject).threw = true
       ∧ (TeamMemberList.deleteTeamMember "b" "1" MutOutcome.reject).toasts = []
       ∧ (TeamMemberList.deleteTeamMember "b" "1" MutOutcome.reject).threw = true) :=
  ⟨rfl, C2_amended_transport_failure_throws "b" "1" false none
    { name := "n", designation := "d", about := "a", departmentId := "1" }
    none MutOutcome.reject rfl⟩

/-- Claim C3 counterexample: with the delete dialog open and target
identifier 3 recorded, pressing Cancel issues no request but leaves the
recorded identifier stored, contradicting the claimed reset. -/
theorem C3_counterexample_cancel_keeps_target :
    (DepartmentList.cancelDeleteClick
      { departments := [], loading := false, isDialogOpen := false
      , isDeleteDialogOpen := true, isEdit := false
      , currentDepartmentId := some "3" }).2 = []
    ∧ (DepartmentList.cancelDeleteClick
      { departments := [], loading := false, isDialogOpen := false
      , isDeleteDialogOpen := true, isEdit := false
      , currentDepartmentId := some "3" }).1.currentDepartmentId = some "3"
    ∧ (DepartmentList.cancelDeleteClick
      { departments := [], loading := false, isDialogOpen := false
      , isDeleteDialogOpen := true, isEdit := false
      , currentDepartmentId := some "3" }).1.currentDepartmentId ≠ none :=
  ⟨rfl, rfl, by decide⟩

/-- Claim C3 amended: in every state, pressing Cancel on either delete
dialog issues zero network requests and closes the dialog, but leaves the
rest of the state, including the recorded target identifier, unchanged. -/
theorem C3_amended_cancel_closes_only (sd : DepartmentList.State)
    (st : TeamMemberList.State) :
    (DepartmentList.cancelDeleteClick sd).2 = []
    ∧ (DepartmentList.cancelDeleteClick sd).1 = { sd with isDeleteDialogOpen := false }
    ∧ (DepartmentList.cancelDeleteClick sd).1.currentDepartmentId = sd.currentDepartmentId
    ∧ (TeamMemberList.cancelDeleteClick st).2 = []
    ∧ (TeamMemberList.cancelDeleteClick st).1 = { st with isDeleteDialogOpen := false }
    ∧ (TeamMemberList.cancelDeleteClick st).1.currentMemberId = st.currentMemberId :=
  ⟨rfl, rfl, rfl, rfl, rfl, rfl⟩

/-- Claim C5: every failing list fetch (fetch rejects, non-OK status, or
unparsable body) leaves the in-memory list state unchanged and emits the
screen's error notification, for both the department and the team-member
collections. -/
theorem C5_list_fetch_failure_preserves_state (priorD : List Department)
    (priorT : List TeamMember) (od : ListOutcome DeptListBody)
    (ot : ListOutcome TeamListBody) (hd : isListFailure od = true)
    (ht : isListFailure ot = true) :
    DepartmentList.fetchDepartments priorD od
      = (priorD, [Toast.error "Failed to load departments"])
    ∧ TeamMemberList.fetchTeamMembers priorT ot
      = (priorT, [Toast.error "Failed to load team members"]) := by
  constructor
  · cases od with
    | reject => rfl
    | response ok body =>
        cases ok with
        | false => cases body <;> rfl
        | true =>
            cases body with
            | none => rfl
            | some b => simp [isListFailure] at hd
  · cases ot with
    | reject => rfl
    | response ok body =>
        cases ok with
        | false => cases body <;> rfl
        | true =>
            cases body with
            | none => rfl
            | some b => simp [isListFailure] at ht

/-- Claim C5, witness at a rejecting fetch with empty prior lists. -/
theorem C5_witness :
    isListFailure (ListOutcome.reject : ListOutcome DeptListBody) = true
    ∧ isListFailure (ListOutcome.reject : ListOutcome TeamListBody) = true
    ∧ (DepartmentList.fetchDepartments [] ListOutcome.reject
        = ([], [Toast.error "Failed to load departments"])
       ∧ TeamMemberList.fetchTeamMembers [] ListOutcome.reject
        = ([], [Toast.error "Failed to load team members"])) :=
  ⟨rfl, rfl, C5_list_fetch_failure_preserves_state [] [] ListOutcome.reject
    ListOutcome.reject rfl rfl⟩

/-- Claim C6: the submitted team-member payload carries an image field
exactly when a non-empty image reference is stored; when none is stored
(or the stored reference is empty, which is falsy) the image key is
absent from the payload entirely, and `onSubmit` submits exactly this
payload. -/
theorem C6_payload_image_optional (d : TeamMemberForm) (link : Option String)
    (s base : String) (isEdit : Bool) (cid : Option String) (o : MutOutcome) :
    ((TeamMemberList.buildPayload d link).image = some s ↔ (link = some s ∧ s ≠ ""))
    ∧ ((TeamMemberList.buildPayload d link).image = none ↔ jsTruthy link = false)
    ∧ (TeamMemberList.onSubmit base isEdit cid d link o).payload
        = TeamMemberList.buildPayload d link := by
  refine ⟨?_, ?_, ?_⟩
  · cases link with
    | none => simp [TeamMemberList.buildPayload, jsTruthy]
    | some t =>
        by_cases ht : t = ""
        · subst ht
          have himg : (TeamMemberList.buildPayload d (some "")).image = none := by
            simp [TeamMemberList.buildPayload, jsTruthy]
          rw [himg]
          constructor
          · intro hcontra
            exact Option.noConfusion hcontra
          · rintro ⟨hls, hs⟩
            exact absurd (Option.some.inj hls).symm hs
        · have himg : (TeamMemberList.buildPayload d (some t)).image = some t := by
            simp [TeamMemberList.buildPayload, jsTruthy, ht]
          rw [himg]
          constructor
          · intro hts
            have hts2 : t = s := Option.some.inj hts
            subst hts2
            exact ⟨rfl, ht⟩
          · rintro ⟨hls, _⟩
            exact hls
  · cases link with
    | none => simp [TeamMemberList.buildPayload, jsTruthy]
    | some t =>
        by_cases ht : t = ""
        · subst ht
          simp [TeamMemberList.buildPayload, jsTruthy]
        · have himg : (TeamMemberList.buildPayload d (some t)).image = some t := by
            simp [TeamMemberList.buildPayload, jsTruthy, ht]
          rw [himg]
          simp [jsTruthy, ht]
  · cases o with
    | reject => rfl
    | response ok body => cases body <;> cases ok <;> rfl

/-- Claim C7: whenever the uploading flag holds, in particular right
after `handleImageChange` starts an upload, the team-member form renders
its submit control disabled. -/
theorem C7_submit_disabled_while_uploading (st st2 : TeamMemberList.State)
    (h : st2.isUploading = true) :
    (TeamMemberList.renderForm
        (TeamMemberList.handleImageChangeStart st)).submitDisabled = true
    ∧ (TeamMemberList.renderForm st2).submitDisabled = true :=
  ⟨rfl, by simp [TeamMemberList.renderForm, h]⟩

/-- Claim C7, witness at a state whose uploading flag is set. -/
theorem C7_witness :
    ({ teamMembers := [], departments := [], loading := false, isDialogOpen := true
     , isDeleteDialogOpen := false, isEdit := false, currentMemberId := none
     , memberImageLink := none, isUploading := true } :
        TeamMemberList.State).isUploading = true
    ∧ ((TeamMemberList.renderForm (TeamMemberList.handleImageChangeStart
         { teamMembers := [], departments := [], loading := false, isDialogOpen := true
         , isDeleteDialogOpen := false, isEdit := false, currentMemberId := none
         , memberImageLink := none, isUploading := false })).submitDisabled = true
       ∧ (TeamMemberList.renderForm
         { teamMembers := [], departments := [], loading := false, isDialogOpen := true
         , isDeleteDialogOpen := false, isEdit := false, currentMemberId := none
         , memberImageLink := none, isUploading := true }).submitDisabled = true) :=
  ⟨rfl, C7_submit_disabled_while_uploading
    { teamMembers := [], departments := [], loading := false, isDialogOpen := true
    , isDeleteDialogOpen := false, isEdit := false, currentMemberId := none
    , memberImageLink := none, isUploading := false }
    { teamMembers := [], departments := [], loading := false, isDialogOpen := true
    , isDeleteDialogOpen := false, isEdit := false, currentMemberId := none
    , memberImageLink := none, isUploading := true } rfl⟩

/-- Claim C8 counterexample: a confirmed delete answered with a non-OK
response whose body is unparsable emits no error notification at all
(the handler throws instead), contradicting the claim's failure branch. -/
theorem C8_counterexample_failure_without_toast :
    (DepartmentList.deleteDepartment "http://api" "3"
      (MutOutcome.response false none)).toasts = []
    ∧ (DepartmentList.deleteDepartment "http://api" "3"
      (MutOutcome.response false none)).refetch = false
    ∧ (DepartmentList.deleteDepartment "http://api" "3"
      (MutOutcome.response false none)).threw = true :=
  ⟨rfl, rfl, rfl⟩

/-- Claim C8 amended: for confirmed deletes whose response body parses,
an OK response yields a success notification equal to the server message
when a non-empty one is present (else the fixed fallback) and the list is
refetched; a non-OK response yields an error notification using the
server message when present (else the fixed fallback) and no refetch.
When the body is unparsable the handler throws and emits nothing. -/
theorem C8_amended_delete_outcome (base id m : String) (b : RespBody)
    (hm : m ≠ "") :
    ((DepartmentList.deleteDepartment base id
        (MutOutcome.response true (some { message := some m }))).toasts
      = [Toast.success m]
     ∧ (DepartmentList.deleteDepartment base id
        (MutOutcome.response true (some { message := some m }))).refetch = true)
    ∧ (DepartmentList.deleteDepartment base id
        (MutOutcome.response true (some { message := none }))).toasts
      = [Toast.success "Department deleted!"]
    ∧ ((DepartmentList.deleteDepartment base id
        (MutOutcome.response false (some b))).toasts
      = [Toast.error (jsOrElse b.message "Delete failed")]
     ∧ (DepartmentList.deleteDepartment base id
        (MutOutcome.response false (some b))).refetch = false) := by
  refine ⟨⟨?_, rfl⟩, rfl, rfl, rfl⟩
  simp [DepartmentList.deleteDepartment, jsOrElse, hm]

/-- Claim C8 amended, witness at the spec's example: HTTP 200 with
message "Department deleted!" on `DELETE /department/3`. -/
theorem C8_amended_witness :
    ("Department deleted!" : String) ≠ ""
    ∧ (((DepartmentList.deleteDepartment "http://api" "3"
          (MutOutcome.response true (some { message := some "Department deleted!" }))).toasts
        = [Toast.success "Department deleted!"]
       ∧ (DepartmentList.deleteDepartment "http://api" "3"
          (MutOutcome.response true (some { message := some "Department deleted!" }))).refetch
        = true)
      ∧ (DepartmentList.deleteDepartment "http://api" "3"
          (MutOutcome.response true (some { message := none }))).toasts
        = [Toast.success "Department deleted!"]
      ∧ ((DepartmentList.deleteDepartment "http://api" "3"
          (MutOutcome.response false (some { message := none }))).toasts
        = [Toast.error (jsOrElse (RespBody.mk none).message "Delete failed")]
       ∧ (DepartmentList.deleteDepartment "http://api" "3"
          (MutOutcome.response false (some { message := none }))).refetch = false)) :=
  ⟨by decide, C8_amended_delete_outcome "http://api" "3" "Department deleted!"
    { message := none } (by decide)⟩

/-- Claim C10: confirming either delete dialog while no target identifier
is recorded issues no delete request at all and still closes the
dialog. -/
theorem C10_confirm_without_target (base : String) (sd : DepartmentList.State)
    (st : TeamMemberList.State) (hd : sd.currentDepartmentId = none)
    (ht : st.currentMemberId = none) :
    (DepartmentList.confirmDeleteClick base sd).2 = []
    ∧ (DepartmentList.confirmDeleteClick base sd).1.isDeleteDialogOpen = false
    ∧ (TeamMemberList.confirmDeleteClick base st).2 = []
    ∧ (TeamMemberList.confirmDeleteClick base st).1.isDeleteDialogOpen = false := by
  refine ⟨?_, rfl, ?_, rfl⟩
  · simp [DepartmentList.confirmDeleteClick, hd]
  · simp [TeamMemberList.confirmDeleteClick, ht]

/-- Claim C10, witness at open delete dialogs with no recorded target. -/
theorem C10_witness :
    ({ departments := [], loading := false, isDialogOpen := false
     , isDeleteDialogOpen := true, isEdit := false
     , currentDepartmentId := none } : DepartmentList.State).currentDepartmentId = none
    ∧ ({ teamMembers := [], departments := [], loading := false, isDialogOpen := false
       , isDeleteDialogOpen := true, isEdit := false, currentMemberId := none
       , memberImageLink := none, isUploading := false } :
          TeamMemberList.State).currentMemberId = none
    ∧ ((DepartmentList.confirmDeleteClick "http://api"
         { departments := [], loading := false, isDialogOpen := false
         , isDeleteDialogOpen := true, isEdit := false
         , currentDepartmentId := none }).2 = []
       ∧ (DepartmentList.confirmDeleteClick "http://api"
         { departments := [], loading := false, isDialogOpen := false
         , isDeleteDialogOpen := true, isEdit := false
         , currentDepartmentId := none }).1.isDeleteDialogOpen = false
       ∧ (TeamMemberList.confirmDeleteClick "http://api"
         { teamMembers := [], departments := [], loading := false, isDialogOpen := false
         , isDeleteDialogOpen := true, isEdit := false, currentMemberId := none
         , memberImageLink := none, isUploading := false }).2 = []
       ∧ (TeamMemberList.confirmDeleteClick "http://api"
         { teamMembers := [], departments := [], loading := false, isDialogOpen := false
         , isDeleteDialogOpen := true, isEdit := false, currentMemberId := none
         , memberImageLink := none, isUploading := false }).1.isDeleteDialogOpen = false) :=
  ⟨rfl, rfl, C10_confirm_without_target "http://api"
    { departments := [], loading := false, isDialogOpen := false
    , isDeleteDialogOpen := true, isEdit := false, currentDepartmentId := none }
    { teamMembers := [], departments := [], loading := false, isDialogOpen := false
    , isDeleteDialogOpen := true, isEdit := false, currentMemberId := none
    , memberImageLink := none, isUploading := false } rfl rfl⟩
